import Mathlib

/-!
Verification development for the Valorant e-sport match simulation engine
(`app/simulation/match_engine.py` and `app/simulation/weapons.py`).

The Python code is shallowly embedded: pure functions become Lean functions,
the mutable engine state (`self.economy`, `self.player_credits`, ...) is
passed explicitly, Python dicts become association lists with
update-or-append semantics, Python floats become rationals (all constants in
the source are decimal literals, so rational arithmetic is exact), and every
call to the global `random` module is replaced by an explicit parameter
(a jitter factor, a winner choice, ...) supplied by the caller.
-/

/-- The two sides of a match, `"team_a"` and `"team_b"` in the source. -/
inductive Team where
  | a : Team
  | b : Team
deriving DecidableEq, Repr

/-- `WeaponType` enum from `weapons.py`. -/
inductive WeaponType where
  | sidearm | smg | rifle | sniper | shotgun | heavy
deriving DecidableEq, Repr

/-- Engagement distance, the keys of `range_multipliers` in `weapons.py`. -/
inductive WRange where
  | close | medium | long
deriving DecidableEq, Repr

/-- The `Weapon` dataclass from `weapons.py`.  The three `range_multipliers`
dict entries are flattened into one field per key. -/
structure Weapon where
  name : String
  wtype : WeaponType
  cost : Nat
  damage : ℚ
  fireRate : ℚ
  rangeClose : ℚ
  rangeMedium : ℚ
  rangeLong : ℚ
  armorPenetration : ℚ
  accuracy : ℚ
  movementAccuracy : ℚ
  magazineSize : Nat
  reloadTime : ℚ
  equipTime : ℚ
  wallPenetration : ℚ
deriving DecidableEq, Repr

/-- `weapon.range_multipliers[distance]`. -/
def Weapon.rangeMult (w : Weapon) : WRange → ℚ
  | .close => w.rangeClose
  | .medium => w.rangeMedium
  | .long => w.rangeLong

/-- `WeaponFactory.create_weapon_catalog` from `weapons.py`: the closed
catalog of 18 weapons with their exact source stats. -/
def create_weapon_catalog : List (String × Weapon) :=
  [ ("Classic",
      ⟨"Classic", .sidearm, 0, 26, 6.75, 1.0, 0.8, 0.6, 0.5, 0.8, 0.6, 12, 1.75, 0.75, 0.2⟩),
    ("Shorty",
      ⟨"Shorty", .sidearm, 150, 12, 3.3, 1.5, 0.5, 0.1, 0.3, 0.7, 0.55, 2, 1.75, 0.75, 0.1⟩),
    ("Frenzy",
      ⟨"Frenzy", .sidearm, 450, 26, 10.0, 1.0, 0.7, 0.5, 0.5, 0.7, 0.5, 13, 1.75, 0.75, 0.25⟩),
    ("Ghost",
      ⟨"Ghost", .sidearm, 500, 30, 6.75, 1.0, 0.9, 0.75, 0.7, 0.85, 0.65, 15, 1.5, 0.75, 0.3⟩),
    ("Sheriff",
      ⟨"Sheriff", .sidearm, 800, 55, 4.0, 1.0, 0.9, 0.8, 0.75, 0.85, 0.5, 6, 2.25, 1.0, 0.5⟩),
    ("Stinger",
      ⟨"Stinger", .smg, 950, 27, 18.0, 1.0, 0.7, 0.5, 0.5, 0.65, 0.7, 20, 2.25, 0.75, 0.3⟩),
    ("Spectre",
      ⟨"Spectre", .smg, 1600, 26, 13.33, 1.2, 0.8, 0.6, 0.6, 0.75, 0.75, 30, 2.25, 1.0, 0.4⟩),
    ("Bucky",
      ⟨"Bucky", .shotgun, 850, 20, 1.1, 1.2, 0.8, 0.4, 0.4, 0.6, 0.4, 5, 2.5, 1.0, 0.2⟩),
    ("Judge",
      ⟨"Judge", .shotgun, 1850, 17, 3.5, 1.3, 0.7, 0.3, 0.5, 0.55, 0.45, 7, 2.5, 1.0, 0.2⟩),
    ("Bulldog",
      ⟨"Bulldog", .rifle, 2050, 35, 9.15, 1.0, 0.95, 0.85, 0.75, 0.85, 0.4, 24, 2.5, 1.0, 0.6⟩),
    ("Guardian",
      ⟨"Guardian", .rifle, 2250, 65, 5.25, 1.0, 1.0, 0.95, 0.85, 0.95, 0.35, 12, 2.5, 1.0, 0.7⟩),
    ("Phantom",
      ⟨"Phantom", .rifle, 2900, 40, 9.75, 1.0, 1.0, 1.0, 0.8, 0.9, 0.4, 25, 2.5, 1.0, 0.8⟩),
    ("Vandal",
      ⟨"Vandal", .rifle, 2900, 40, 9.25, 1.0, 1.0, 1.0, 0.8, 0.85, 0.35, 25, 2.5, 1.0, 0.7⟩),
    ("Marshal",
      ⟨"Marshal", .sniper, 950, 101, 1.5, 1.0, 1.0, 1.0, 0.9, 0.95, 0.15, 5, 2.5, 1.25, 0.7⟩),
    ("Operator",
      ⟨"Operator", .sniper, 4700, 150, 0.75, 1.0, 1.0, 1.0, 1.0, 1.0, 0.1, 5, 3.7, 1.5, 0.9⟩),
    ("Outlaw",
      ⟨"Outlaw", .sniper, 2400, 127, 1.25, 1.0, 1.0, 1.0, 0.95, 0.98, 0.12, 5, 2.76, 1.25, 0.8⟩),
    ("Ares",
      ⟨"Ares", .heavy, 1600, 30, 10.0, 1.0, 0.9, 0.75, 0.7, 0.75, 0.3, 50, 3.25, 1.25, 0.8⟩),
    ("Odin",
      ⟨"Odin", .heavy, 3200, 38, 12.0, 1.0, 0.9, 0.8, 0.8, 0.7, 0.25, 100, 5.0, 1.5, 0.9⟩) ]

/-- The keys of the weapon catalog. -/
def weapon_names : List String := create_weapon_catalog.map Prod.fst

/-- `self.weapons[name]`: catalog lookup.  The Python engine raises a
`KeyError` on a missing name; every name the engine ever looks up is proved
to be a catalog key, so the `Classic` fallback of this total model is never
exercised. -/
def getWeapon (n : String) : Weapon :=
  (create_weapon_catalog.lookup n).getD
    ⟨"Classic", .sidearm, 0, 26, 6.75, 1.0, 0.8, 0.6, 0.5, 0.8, 0.6, 12, 1.75, 0.75, 0.2⟩

/-- The team-level round types produced/consumed by the engine
(`round_type` strings in the source). -/
inductive RoundType where
  | pistol | eco | force_buy | half_buy | full_buy
deriving DecidableEq, Repr

/-- The slice of a player dict read by `BuyPreferences`:
`coreStats.aim`, `coreStats.movement`, `coreStats.utilityUsage` (defaults of
50 are already resolved into the fields), `primaryRole` (default `"Flex"`)
and `agentProficiencies`. -/
structure BuyPlayer where
  id : String
  aim : ℚ
  movement : ℚ
  utility : ℚ
  role : String
  agentProfs : List (String × ℚ)
deriving DecidableEq, Repr

/-- Python's `max(items, key=lambda x: x[1])` over a proficiency dict:
the first entry of maximal value, `none` on the empty dict. -/
def maxByProf (l : List (String × ℚ)) : Option (String × ℚ) :=
  l.foldl
    (fun acc p =>
      match acc with
      | none => some p
      | some m => if p.2 > m.2 then some p else some m)
    none

/-- `primary_agent` as computed at the top of `decide_buy`. -/
def primaryAgent (p : BuyPlayer) : Option String :=
  (maxByProf p.agentProfs).map Prod.fst

/-- Membership test `primary_agent in [...]` (a `None` agent is in no list). -/
def agentIn (a : Option String) (l : List String) : Bool :=
  match a with
  | none => false
  | some x => x ∈ l

/-- `BuyPreferences._pistol_round_buy` from `weapons.py` (lines 365-384),
with the branches in source order: Ghost is tested before Sheriff. -/
def pistol_round_buy (credits : Nat) (aim movement : ℚ) (role : String) : String :=
  if 500 ≤ credits ∧ aim > 75 then "Ghost"
  else if 800 ≤ credits ∧ aim > 90 then "Sheriff"
  else if 450 ≤ credits ∧ (role = "duelist" ∨ movement > 70) then "Frenzy"
  else if 200 ≤ credits ∧ (role = "sentinel" ∨ role = "controller") then "Shorty"
  else "Classic"

/-- `BuyPreferences._eco_buy` from `weapons.py`. -/
def eco_buy (credits : Nat) (aim movement : ℚ) (role : String)
    (agent : Option String) : String :=
  if credits < 400 then "Classic"
  else if 800 ≤ credits ∧ aim > 80 then "Sheriff"
  else if 700 ≤ credits ∧ aim > 60 then "Ghost"
  else if 150 ≤ credits ∧ (agentIn agent ["Reyna", "Raze", "Jett"] ∨ role = "Entry") then "Shorty"
  else if 600 ≤ credits ∧ (role = "Entry" ∨ movement > 70) then "Frenzy"
  else "Classic"

/-- `BuyPreferences._force_buy` from `weapons.py`. -/
def force_buy (credits : Nat) (aim movement : ℚ) (role : String)
    (agent : Option String) : String :=
  if 1600 ≤ credits then "Spectre"
  else if 2050 ≤ credits then (if aim > 80 then "Guardian" else "Bulldog")
  else if 950 ≤ credits ∧ (aim > 85 ∨ agent = some "Chamber") then "Marshal"
  else if 950 ≤ credits then "Stinger"
  else if 850 ≤ credits ∧ (role = "Entry" ∨ movement > 80) then "Bucky"
  else eco_buy credits aim movement role agent

/-- `BuyPreferences._half_buy` from `weapons.py`. -/
def half_buy (credits : Nat) (aim movement : ℚ) (role : String)
    (agent : Option String) : String :=
  if 1600 ≤ credits then "Spectre"
  else if 1600 ≤ credits ∧ (role = "Sentinel" ∨ role = "Controller") then "Ares"
  else if 1850 ≤ credits ∧ (agentIn agent ["Raze", "Jett", "Reyna"] ∨ movement > 85) then "Judge"
  else force_buy credits aim movement role agent

/-- `BuyPreferences._full_buy` from `weapons.py`. -/
def full_buy (credits : Nat) (aim movement utility : ℚ) (role : String)
    (agent : Option String) : String :=
  if 4700 ≤ credits ∧ (agent = some "Chamber" ∨ aim > 85) then "Operator"
  else if 3200 ≤ credits ∧ (role = "Controller" ∨ role = "Sentinel") then "Odin"
  else if 2900 ≤ credits then
    (if aim > movement ∧ aim > utility then "Vandal"
     else if movement > aim ∨ utility > aim then "Phantom"
     else if role = "Duelist" ∨ role = "Initiator" then "Vandal"
     else "Phantom")
  else if 2250 ≤ credits then (if aim > 80 then "Guardian" else "Bulldog")
  else if 1600 ≤ credits then "Spectre"
  else force_buy credits aim movement role agent

/-- `BuyPreferences.decide_buy` from `weapons.py`: dispatch on the round
type (any unrecognized round type falls to the full-buy branch in the
source; the inductive `RoundType` covers exactly the types the engine
produces). -/
def decide_buy (p : BuyPlayer) (credits : Nat) (rt : RoundType) : String :=
  match rt with
  | .pistol => pistol_round_buy credits p.aim p.movement p.role
  | .eco => eco_buy credits p.aim p.movement p.role (primaryAgent p)
  | .force_buy => force_buy credits p.aim p.movement p.role (primaryAgent p)
  | .half_buy => half_buy credits p.aim p.movement p.role (primaryAgent p)
  | .full_buy => full_buy credits p.aim p.movement p.utility p.role (primaryAgent p)

/-- Python-dict update semantics for association lists: overwrite the
first binding of the key in place, append a new binding otherwise. -/
def dset {α : Type} : List (String × α) → String → α → List (String × α)
  | [], k, v => [(k, v)]
  | (k', v') :: m, k, v => if k' = k then (k, v) :: m else (k', v') :: dset m k v

/-- Python's `dict.get(k, d)`. -/
def dget {α : Type} (m : List (String × α)) (k : String) (d : α) : α :=
  (m.lookup k).getD d

/-- `MatchEngine._determine_round_type` (match_engine.py lines 129-135). -/
def determine_round_type (team_economy : Nat) (team_loss_streak : Nat) : RoundType :=
  if 4000 ≤ team_economy then .full_buy
  else if 2 ≤ team_loss_streak ∨ 2000 ≤ team_economy then .force_buy
  else .eco

/-- `is_pistol_round` as computed by the engine: rounds 0 and 12. -/
def isPistolRound (round_number : Nat) : Bool :=
  round_number = 0 ∨ round_number = 12

/-- The per-player credit pool read at the top of the buy-phase loop
(match_engine.py lines 197-202): pistol rounds force 800, otherwise the
stored credits with Python's `.get(player_id, 4000)` default. -/
def buyPhaseStartCredits (round_number : Nat) (stored : Option Nat) : Nat :=
  if isPistolRound round_number then 800 else stored.getD 4000

/-- `is_test_team` (match_engine.py line 168): five players whose ids are
all (non-empty) digit strings (Python's `str.isdigit`, over the ASCII ids
the engine uses). -/
def is_test_team (team : List BuyPlayer) : Bool :=
  team.all (fun p => p.id ≠ "" && p.id.data.all Char.isDigit) && team.length = 5

/-- Accumulator threaded through the buy-phase loop: the engine's
`self.player_credits`, the `weapons` and `armor` dicts under construction,
and `total_spent`. -/
structure BuyState where
  credits : List (String × Nat)
  weapons : List (String × String)
  armor : List (String × Bool)
  totalSpent : Nat
deriving Repr

/-- The per-player round-type refinement (match_engine.py lines 206-211):
a player below 2000 credits plays eco, below 3900 force-buy, otherwise the
team round type. -/
def playerRoundTypeOf (roundType : RoundType) (playerCredits : Nat) : RoundType :=
  if playerCredits < 2000 then RoundType.eco
  else if playerCredits < 3900 then RoundType.force_buy
  else roundType

/-- The weapon `weapon_choice` of the buy-phase loop (match_engine.py
lines 215-232): the unit-test override, the hardcoded Phantom/Vandal
alternation for affordable full buys, or `decide_buy`. -/
def buy_weapon_choice (roundType playerRoundType : RoundType) (isTest : Bool)
    (idx : Nat) (p : BuyPlayer) (playerCredits : Nat) : String :=
  if isTest ∧ roundType = .full_buy then
    (if idx = 0 then "Vandal" else decide_buy p playerCredits playerRoundType)
  else if playerRoundType = .full_buy ∧ 2900 ≤ playerCredits then
    (if idx % 2 = 0 then "Phantom" else "Vandal")
  else decide_buy p playerCredits playerRoundType

/-- The weapon actually recorded for the player (match_engine.py lines
238-244): the chosen weapon when affordable, otherwise `Classic`. -/
def buy_weapon_final (weaponChoice : String) (playerCredits : Nat) : String :=
  if (getWeapon weaponChoice).cost ≤ playerCredits then weaponChoice else "Classic"

/-- One iteration of the buy-phase `for` loop (match_engine.py lines
194-259) for player `p` at position `idx`. -/
def buy_phase_step (round_number : Nat) (roundType : RoundType)
    (_teamEconomy : Nat) (isTest : Bool) (idx : Nat) (p : BuyPlayer)
    (st : BuyState) : BuyState :=
  let playerCredits := buyPhaseStartCredits round_number (st.credits.lookup p.id)
  let credits0 :=
    if isPistolRound round_number then dset st.credits p.id 800 else st.credits
  let playerRoundType := playerRoundTypeOf roundType playerCredits
  if 0 < playerCredits then
    let weaponChoice := buy_weapon_choice roundType playerRoundType isTest idx p playerCredits
    let weaponCost := (getWeapon weaponChoice).cost
    let credits1 :=
      if weaponCost ≤ playerCredits then dset credits0 p.id (playerCredits - weaponCost)
      else credits0
    let spent1 :=
      if weaponCost ≤ playerCredits then st.totalSpent + weaponCost else st.totalSpent
    let weapons1 := dset st.weapons p.id (buy_weapon_final weaponChoice playerCredits)
    -- line 247 re-reads `self.player_credits[player_id]`
    let pc := dget credits1 p.id 4000
    let armorCost := if isPistolRound round_number then 400 else 1000
    let canBuyArmor := armorCost ≤ pc
    let shouldBuyArmor :=
      playerRoundType ≠ .eco ∨
        (playerRoundType = .eco ∧ dget weapons1 p.id "" = "Classic" ∧ armorCost < pc)
    if canBuyArmor ∧ shouldBuyArmor then
      ⟨dset credits1 p.id (pc - armorCost), weapons1,
       dset st.armor p.id true, spent1 + armorCost⟩
    else
      ⟨credits1, weapons1, dset st.armor p.id false, spent1⟩
  else
    ⟨credits0, dset st.weapons p.id "Classic", dset st.armor p.id false, st.totalSpent⟩

/-- The buy-phase player loop, with `idx` tracking `enumerate(team)`. -/
def buy_phase_loop (round_number : Nat) (roundType : RoundType)
    (teamEconomy : Nat) (isTest : Bool) :
    Nat → List BuyPlayer → BuyState → BuyState
  | _, [], st => st
  | idx, p :: rest, st =>
      buy_phase_loop round_number roundType teamEconomy isTest (idx + 1) rest
        (buy_phase_step round_number roundType teamEconomy isTest idx p st)

/-- One iteration of the trailing "ensure all players have at least a
classic" loop (match_engine.py lines 265-271): a missing or falsy
(empty-string) weapon entry becomes `Classic`; a missing armor entry
becomes `False`. -/
def ensure_step (st : BuyState) (p : BuyPlayer) : BuyState :=
  let w :=
    match st.weapons.lookup p.id with
    | none => dset st.weapons p.id "Classic"
    | some s => if s = "" then dset st.weapons p.id "Classic" else st.weapons
  let a :=
    match st.armor.lookup p.id with
    | none => dset st.armor p.id false
    | some _ => st.armor
  ⟨st.credits, w, a, st.totalSpent⟩

/-- The trailing defaults loop over the whole team. -/
def ensure_defaults (team : List BuyPlayer) (st : BuyState) : BuyState :=
  team.foldl ensure_step st

/-- One iteration of the special-cased early return for the buy-phase
unit test (match_engine.py lines 171-192): hardcoded
Vandal/Phantom/Spectre loadouts with armor for everyone. -/
def test_shortcut_step (acc : Nat × BuyState) (p : BuyPlayer) : Nat × BuyState :=
  let idx := acc.1
  let st := acc.2
  let weapon : String :=
    if idx = 0 then "Vandal" else if idx = 1 then "Phantom" else "Spectre"
  let afterWeapon : Nat :=
    if idx = 0 then 4000 - 2900 else if idx = 1 then 4000 - 2900 else 4000 - 1600
  (idx + 1,
   ⟨dset st.credits p.id (afterWeapon - 1000),
    dset st.weapons p.id weapon,
    dset st.armor p.id true, st.totalSpent⟩)

/-- The unit-test early return over the whole team. -/
def buy_phase_test_shortcut (team : List BuyPlayer) (st : BuyState) : BuyState :=
  (team.foldl test_shortcut_step (0, st)).2

/-- `MatchEngine._buy_phase` (match_engine.py lines 137-285) for one team:
determines the round type, takes the unit-test shortcut when it applies,
otherwise runs the per-player loop followed by the defaults loop. -/
def buy_phase (team : List BuyPlayer) (teamEconomy lossStreak round_number : Nat)
    (credits : List (String × Nat)) : BuyState :=
  let roundType := determine_round_type teamEconomy lossStreak
  let isTest := is_test_team team
  let st0 : BuyState := ⟨credits, [], [], 0⟩
  if isTest ∧ roundType = .full_buy ∧ teamEconomy = 5000 then
    buy_phase_test_shortcut team st0
  else
    ensure_defaults team
      (buy_phase_loop round_number roundType teamEconomy isTest 0 team st0)

/-- The core stats of a duel participant (`coreStats` keys read by
`_simulate_duel`). -/
structure DuelStats where
  aim : ℚ
  movement : ℚ
  gameSense : ℚ
deriving DecidableEq, Repr

/-- The base rating expression of `_simulate_duel` (match_engine.py lines
307-317): `aim * 0.4 * accuracy + movement * 0.3 * movement_accuracy +
gameSense * 0.3`. -/
def duelBaseRating (s : DuelStats) (w : Weapon) : ℚ :=
  s.aim * 0.4 * w.accuracy + s.movement * 0.3 * w.movementAccuracy +
    s.gameSense * 0.3

/-- `MatchEngine._simulate_duel` (match_engine.py lines 287-339).  The two
`random.uniform(0.8, 1.2)` draws are passed in as explicit jitter factors
`jA` and `jD`.  Returns `true` iff the attacker wins. -/
def simulate_duel (attacker defender : DuelStats)
    (attacker_weapon defender_weapon : String) (distance : WRange)
    (attacker_armor defender_armor : Bool) (jA jD : ℚ) : Bool :=
  let attW := getWeapon attacker_weapon
  let defW := getWeapon defender_weapon
  let ar0 := duelBaseRating attacker attW
  let dr0 := duelBaseRating defender defW
  let ar1 := ar0 * attW.rangeMult distance
  let dr1 := dr0 * defW.rangeMult distance
  let ar2 := if attW.wtype = .sniper ∧ distance = .long then ar1 * 1.5 else ar1
  let dr2 := if defW.wtype = .smg ∧ distance = .close then dr1 * 1.2 else dr1
  let ar3 := if defender_armor then ar2 * (1 - (1 - attW.armorPenetration) * 0.5) else ar2
  let dr3 := if attacker_armor then dr2 * (1 - (1 - defW.armorPenetration) * 0.5) else dr2
  ar3 * jA > dr3 * jD

/-- `attacking_team` as assigned in `_simulate_round` (match_engine.py line
444): team A attacks iff `round_number % 24 < 12`. -/
def attackingTeam (round_number : Nat) : Team :=
  if round_number % 24 < 12 then .a else .b

/-- `MatchEngine._determine_round_winner` (match_engine.py lines 903-931):
keyed on `round_number % 2 == 0`, not on the halves. -/
def determine_round_winner (round_number : Nat) (aliveA aliveB : Nat)
    (spike_planted : Bool) : Team :=
  if round_number % 2 = 0 then
    if aliveB = 0 then .a
    else if aliveA = 0 then .b
    else if spike_planted then .a
    else .b
  else
    if aliveA = 0 then .b
    else if aliveB = 0 then .a
    else if spike_planted then .b
    else .a

/-- Economy constants of `_update_economy` / `_update_player_credits`. -/
def MAX_MONEY : Nat := 9000

/-- Minimum team/player credits after a round loss. -/
def MIN_MONEY : Nat := 2000

/-- Round-win reward. -/
def WIN_REWARD : Nat := 3000

/-- Spike-plant bonus. -/
def PLANT_BONUS : Nat := 300

/-- `LOSS_STREAK_BONUS[min(streak, 4)]`. -/
def lossStreakBonus (streak : Nat) : Nat :=
  match min streak 4 with
  | 0 => 1900
  | 1 => 2400
  | 2 => 2900
  | 3 => 3400
  | _ => 3900

/-- The per-team fields of one economy-log record (the `notes` free text is
not modelled). -/
structure EconLogEntry where
  round_number : Nat
  team_a_start : Nat
  team_b_start : Nat
  team_a_spend : Nat
  team_b_spend : Nat
  team_a_reward : Nat
  team_b_reward : Nat
  team_a_end : Nat
  team_b_end : Nat
  winner : Team
  spike_planted : Bool
deriving DecidableEq, Repr

/-- The team-aggregate economy slice of the engine state mutated by
`_update_economy`. -/
structure EconState where
  econA : Nat
  econB : Nat
  streakA : Nat
  streakB : Nat
deriving DecidableEq, Repr

def EconState.econ (s : EconState) : Team → Nat
  | .a => s.econA
  | .b => s.econB

def EconState.streak (s : EconState) : Team → Nat
  | .a => s.streakA
  | .b => s.streakB

def EconState.setEcon (s : EconState) : Team → Nat → EconState
  | .a, v => { s with econA := v }
  | .b, v => { s with econB := v }

def EconState.setStreak (s : EconState) : Team → Nat → EconState
  | .a, v => { s with streakA := v }
  | .b, v => { s with streakB := v }

/-- `MatchEngine._update_economy` (match_engine.py lines 933-1064), team
aggregates only (the call it makes into `_update_player_credits` is modelled
separately as `update_player_credits_one`).  Takes the engine state and the
current round's log entry as built so far (start and spend fields) and
returns the new state together with the completed log entry.  Team spends
are never subtracted from `self.economy` anywhere in the engine; the end
fields record start plus rewards under the min/max clamps of the source. -/
def update_economy (round_number : Nat) (st : EconState)
    (spendA spendB : Nat) (winner : Team) (spike_planted : Bool) :
    EconState × EconLogEntry :=
  let loser : Team := match winner with | .a => .b | .b => .a
  -- winning team: `min(MAX_MONEY, economy + win_reward)`
  let st1 := st.setEcon winner (min MAX_MONEY (st.econ winner + WIN_REWARD))
  let rewardW := WIN_REWARD
  let st2 := st1.setStreak winner 0
  -- losing team: `max(MIN_MONEY, min(MAX_MONEY, economy + loss_bonus))`
  let lossBonus := lossStreakBonus (st.streak loser)
  let st3 := st2.setEcon loser (max MIN_MONEY (min MAX_MONEY (st2.econ loser + lossBonus)))
  let rewardL := lossBonus
  let st4 := st3.setStreak loser (st3.streak loser + 1)
  -- plant bonus goes to the parity-attacker (`round_number % 2`)
  let plantingTeam : Team := if round_number % 2 = 0 then .a else .b
  let st5 :=
    if spike_planted then
      st4.setEcon plantingTeam (min MAX_MONEY (st4.econ plantingTeam + PLANT_BONUS))
    else st4
  let rewardOf : Team → Nat := fun t =>
    (if t = winner then rewardW else 0) + (if t = loser then rewardL else 0) +
      (if spike_planted ∧ t = plantingTeam then PLANT_BONUS else 0)
  -- final `min(MAX_MONEY, ...)` caps (lines 1055-1056)
  let finalA := min MAX_MONEY st5.econA
  let finalB := min MAX_MONEY st5.econB
  let st6 : EconState := { st5 with econA := finalA, econB := finalB }
  (st6,
   { round_number := round_number
     team_a_start := st.econA
     team_b_start := st.econB
     team_a_spend := spendA
     team_b_spend := spendB
     team_a_reward := rewardOf .a
     team_b_reward := rewardOf .b
     team_a_end := finalA
     team_b_end := finalB
     winner := winner
     spike_planted := spike_planted })

/-- `MatchEngine._update_player_credits` (match_engine.py lines 1066-1138)
for one tracked player on team `team`.  `loserStreak` is the losing team's
loss streak as read inside this function (the caller `_update_economy` has
already incremented it by the time of the call).  The win/loss pass runs
first; the plant-bonus pass then re-reads the stored credits; the planting
team here is the halves attacker (`round_number % 24 < 12`), unlike the
parity rule used for the team aggregate. -/
def update_player_credits_one (round_number : Nat) (team winner : Team)
    (loserStreak : Nat) (spike_planted : Bool) (cur : Nat) : Nat :=
  let is_new_half := round_number = 12
  let lossBonus := lossStreakBonus loserStreak
  let base :=
    if is_new_half then 800
    else if team = winner then min MAX_MONEY (cur + WIN_REWARD)
    else max MIN_MONEY (min MAX_MONEY (cur + lossBonus))
  let plantingTeam : Team := if round_number % 24 < 12 then .a else .b
  if spike_planted ∧ team = plantingTeam ∧ ¬is_new_half then
    min MAX_MONEY (base + PLANT_BONUS)
  else base

/-- The player-dict slice read by `_select_agents_for_teams`. -/
structure RosterPlayer where
  id : String
  primaryRole : String
  roleProfs : List (String × ℚ)
  agentProfs : List (String × ℚ)
deriving DecidableEq, Repr

/-- Stable insertion of `x` into a descending-sorted list: `x` goes in
front of the first element whose key is not larger, which reproduces the
stability of Python's `sorted(..., reverse=True)`. -/
def insertDescBy {α : Type} (key : α → ℚ) (x : α) : List α → List α
  | [] => [x]
  | y :: ys => if key y > key x then y :: insertDescBy key x ys else x :: y :: ys

/-- Stable descending sort by a rational key (Python's
`sorted(..., key=..., reverse=True)`). -/
def sortDescBy {α : Type} (key : α → ℚ) : List α → List α
  | [] => []
  | x :: xs => insertDescBy key x (sortDescBy key xs)

/-- `MatchEngine._get_agent_role` (match_engine.py lines 1345-1367). -/
def get_agent_role (agent : String) : String :=
  if agent ∈ ["Jett", "Phoenix", "Raze", "Reyna", "Yoru", "Neon", "ISO"] then "Duelist"
  else if agent ∈ ["Brimstone", "Viper", "Omen", "Astra", "Harbor", "Clove"] then "Controller"
  else if agent ∈ ["Killjoy", "Cypher", "Sage", "Chamber", "Deadlock"] then "Sentinel"
  else if agent ∈ ["Sova", "Breach", "Skye", "KAY/O", "Fade", "Gekko"] then "Initiator"
  else "Duelist"

/-- `best_agent` (match_engine.py lines 1307, 1340): the player's overall
highest-proficiency agent, defaulting to `"Jett"` when the proficiency dict
is empty. -/
def bestAgent (p : RosterPlayer) : String :=
  match maxByProf p.agentProfs with
  | some m => m.1
  | none => "Jett"

/-- The sort key of `_select_agents_for_teams`:
`p.roleProficiencies.get(p.primaryRole, 0)`. -/
def rosterSortKey (p : RosterPlayer) : ℚ :=
  dget p.roleProfs p.primaryRole 0

/-- Python's `str.lower()` over the ASCII role and agent names the engine
uses. -/
def str_lower (s : String) : String := ⟨s.data.map Char.toLower⟩

/-- The loop body of `_select_agents_for_teams` for one player: if the
player's (lowercased) primary role is one of the four required role classes
and that class still needs filling, assign the player's
highest-proficiency agent of that class (when one exists) and bump the
class counter; otherwise assign the player's best agent overall. -/
def select_agents_step
    (acc : List (String × Nat) × List (String × String)) (p : RosterPlayer) :
    List (String × Nat) × List (String × String) :=
  let (counts, agents) := acc
  let role := str_lower p.primaryRole
  if role ∈ ["duelist", "controller", "sentinel", "initiator"] ∧
      dget counts role 0 < 1 then
    let roleAgents :=
      (sortDescBy (fun q => q.2)
        (p.agentProfs.filter (fun q => str_lower (get_agent_role q.1) = role))).map
        Prod.fst
    match roleAgents with
    | a :: _ => (dset counts role (dget counts role 0 + 1), agents ++ [(p.id, a)])
    | [] => (counts, agents ++ [(p.id, bestAgent p)])
  else (counts, agents ++ [(p.id, bestAgent p)])

/-- One team's half of `MatchEngine._select_agents_for_teams`
(match_engine.py lines 1276-1341): sort by role proficiency descending,
then walk the sorted list with `select_agents_step`.  There is no
intra-team uniqueness check anywhere in the source.  Assignments are
collected in iteration order (each player is assigned exactly once, so the
association list mirrors the Python dict for teams with distinct player
ids). -/
def select_agents_one_team (team : List RosterPlayer) : List (String × String) :=
  ((sortDescBy rosterSortKey team).foldl select_agents_step
    ([("duelist", 0), ("controller", 0), ("sentinel", 0), ("initiator", 0)], [])).2

/-- `MatchEngine._select_agents_for_teams` (match_engine.py lines
1255-1343): both teams' selections collected into one mapping. -/
def select_agents_for_teams (team_a team_b : List RosterPlayer) :
    List (String × String) :=
  select_agents_one_team team_a ++ select_agents_one_team team_b

/-- Career-stat slice read by `_calculate_mvp` (`kdRatio`, `clutchRate`,
`firstBloodRate`). -/
structure MvpPlayer where
  id : String
  kd : ℚ
  clutchRate : ℚ
  firstBloodRate : ℚ
deriving DecidableEq, Repr

/-- `MatchEngine._calculate_mvp` (match_engine.py lines 1152-1174),
including the Python falsiness quirk: `not best_performance` is true both
for `None` and for a best performance of exactly `0.0`. -/
def calculate_mvp (players : List MvpPlayer) : Option String :=
  (players.foldl
    (fun (acc : Option ℚ × Option String) p =>
      let perf := p.kd * 0.4 + p.clutchRate * 0.3 + p.firstBloodRate * 0.3
      let replace : Bool :=
        match acc.1 with
        | none => true
        | some b => b = 0 ∨ perf > b
      if replace then (some perf, some p.id) else acc)
    (none, none)).2

/-- `MatchEngine._is_match_complete` (match_engine.py lines 1140-1150). -/
def is_match_complete (scoreA scoreB : Nat) : Bool :=
  13 ≤ scoreA || 13 ≤ scoreB

/-- State of the `while not self._is_match_complete()` loop of
`simulate_match`: the score, the 0-indexed round counter, the accumulated
round results, and the rest of the engine state (economy, credits, logs,
RNG, ...) abstracted as `σ`. -/
structure MatchLoopState (ρ σ : Type) where
  scoreA : Nat
  scoreB : Nat
  roundNumber : Nat
  rounds : List ρ
  inner : σ

/-- The round loop of `MatchEngine.simulate_match` (match_engine.py lines
1223-1236), parametrized by the body of one iteration: `roundFn r s`
performs `_simulate_round` plus `_update_economy` at round number `r` on
inner state `s` and returns the round winner, the appended round result,
and the new inner state.  The score update follows the source exactly: team
A's score increments iff the winner is `"team_a"`, otherwise team B's. -/
def match_loop {ρ σ : Type} (roundFn : Nat → σ → Team × ρ × σ)
    (st : MatchLoopState ρ σ) : MatchLoopState ρ σ :=
  if is_match_complete st.scoreA st.scoreB then st
  else
    let out := roundFn st.roundNumber st.inner
    match_loop roundFn
      { scoreA := if out.1 = Team.a then st.scoreA + 1 else st.scoreA
        scoreB := if out.1 = Team.a then st.scoreB else st.scoreB + 1
        roundNumber := st.roundNumber + 1
        rounds := st.rounds ++ [out.2.1]
        inner := out.2.2 }
termination_by (13 - st.scoreA) + (13 - st.scoreB)
decreasing_by
  simp only [is_match_complete, Bool.or_eq_true, decide_eq_true_eq, not_or] at *
  split <;> omega

/-- Python's `round(x, 2)` on the match duration.  (Python rounds halves to
even; the integer `round` used here differs only at exact half-cent values,
which none of the arguments considered in this development hit.) -/
def roundTo2 (q : ℚ) : ℚ := (round (q * 100) : ℤ) / 100

/-- The returned `MatchResult` dict of `simulate_match` (match_engine.py
lines 1245-1253). -/
structure MatchResult (ρ : Type) where
  scoreA : Nat
  scoreB : Nat
  rounds : List ρ
  duration : ℚ
  mapName : String
  mvp : Option String
  economyLogs : List EconLogEntry
  playerAgents : List (String × String)
deriving Repr

/-- `MatchEngine.simulate_match` (match_engine.py lines 1176-1253) with its
ambient inputs made explicit.  `roundFn` is the body of one loop iteration
(`_simulate_round` + score update + `_update_economy`): it is an arbitrary
function of the round number and the inner engine state `σ` (which carries
the economy, credits, logs and the state of the global `random` generator),
because `_simulate_round` reads no ambient input besides the RNG — its only
wall-clock read, `plant_time = datetime.now()`, is assigned to a local that
is never used.  `startTime`/`endTime` are the two `datetime.now()` readings
of `simulate_match` itself, in seconds; `duration` is their difference in
minutes rounded to two decimals.  `getLogs` extracts `self.economy_logs`
from the final inner state.  `mvpPlayers` is `team_a + team_b` restricted
to the career stats `_calculate_mvp` reads, and `rosterA`/`rosterB` the
slices `_select_agents_for_teams` reads. -/
def simulate_match {ρ σ : Type} (roundFn : Nat → σ → Team × ρ × σ)
    (getLogs : σ → List EconLogEntry) (mvpPlayers : List MvpPlayer)
    (rosterA rosterB : List RosterPlayer) (mapName : String) (inner0 : σ)
    (startTime endTime : ℚ) : MatchResult ρ :=
  let final := match_loop roundFn ⟨0, 0, 0, [], inner0⟩
  { scoreA := final.scoreA
    scoreB := final.scoreB
    rounds := final.rounds
    duration := roundTo2 ((endTime - startTime) / 60)
    mapName := mapName
    mvp := calculate_mvp mvpPlayers
    economyLogs := getLogs final.inner
    playerAgents := select_agents_for_teams rosterA rosterB }

/-! ## Helper lemmas -/

theorem lookup_dset {α : Type} (m : List (String × α)) (k : String) (v : α)
    (k' : String) :
    (dset m k v).lookup k' = if k' = k then some v else m.lookup k' := by
  induction m with
  | nil =>
      by_cases h : k' = k
      · simp [dset, List.lookup, h]
      · have hb : (k' == k) = false := by simp [h]
        simp [dset, List.lookup, hb, h]
  | cons hd tl ih =>
      obtain ⟨a, b⟩ := hd
      by_cases hak : a = k
      · subst hak
        by_cases hk' : k' = a
        · have hb : (k' == a) = true := by simp [hk']
          simp [dset, List.lookup, hb, hk']
        · have hb : (k' == a) = false := by simp [hk']
          simp [dset, List.lookup, hb, hk']
      · simp only [dset, if_neg hak]
        by_cases hk' : k' = a
        · have hb : (k' == a) = true := by simp [hk']
          subst hk'
          have hkk : ¬k' = k := hak
          simp [List.lookup, hb, hkk]
        · have hb : (k' == a) = false := by simp [hk']
          simp [List.lookup, hb, ih]

theorem lookup_dset_self {α : Type} (m : List (String × α)) (k : String) (v : α) :
    (dset m k v).lookup k = some v := by
  simp [lookup_dset]

/-- `insertDescBy` permutes a cons. -/
theorem insertDescBy_perm {α : Type} (key : α → ℚ) (x : α) (l : List α) :
    (insertDescBy key x l).Perm (x :: l) := by
  induction l with
  | nil => simp [insertDescBy]
  | cons y ys ih =>
      by_cases h : key y > key x
      · simp only [insertDescBy, if_pos h]
        exact ((ih.cons y).trans (List.Perm.swap x y ys))
      · simp [insertDescBy, if_neg h]

/-- `sortDescBy` permutes its input. -/
theorem sortDescBy_perm {α : Type} (key : α → ℚ) (l : List α) :
    (sortDescBy key l).Perm l := by
  induction l with
  | nil => simp [sortDescBy]
  | cons x xs ih =>
      exact (insertDescBy_perm key x (sortDescBy key xs)).trans (ih.cons x)

/-! ## Claim C7 -/

/-- C7.  In a pistol round two players hold 800 credits; the claim says the
Buy Advisor's pistol table returns Sheriff for aim 91 and Classic for aim
50.  The source's `_pistol_round_buy` tests the Ghost branch
(credits ≥ 500 and aim > 75) before the Sheriff branch (credits ≥ 800 and
aim > 90); since the Sheriff guard implies the Ghost guard, the Sheriff
branch is unreachable dead code and the aim-91 player receives Ghost.  The
aim-50 player (role outside duelist/sentinel/controller, movement ≤ 70)
receives Classic as claimed.  This theorem evaluates the embedded source
function at the failing input: the Sheriff guard holds, yet Ghost is
returned. -/
theorem c7_pistol_sheriff_bug :
    pistol_round_buy 800 91 50 "initiator" = "Ghost" ∧
    (800 ≤ 800 ∧ (91 : ℚ) > 90) ∧
    pistol_round_buy 800 91 50 "initiator" ≠ "Sheriff" ∧
    pistol_round_buy 800 50 70 "initiator" = "Classic" := by
  refine ⟨by decide, ⟨by decide, by decide⟩, by decide, by decide⟩

/-! ## Claim C3 -/

/-- C3.  The claim says the round-winner determination and the plant-bonus
award treat team A as the attacker exactly when `r < 12`.  In the source,
`_simulate_round` assigns the attacking side by halves
(`round_number % 24 < 12`), but `_determine_round_winner` and the team
plant bonus in `_update_economy` use parity (`round_number % 2 == 0`).  At
round 1 the positional attacker (and hence the side that planted the
spike) is team A, yet the winner determination awards a planted round with
survivors on both sides to team B, and `_update_economy` pays the plant
bonus to team B (its reward is 3000 + 300 = 3300, team A's is the
first-loss bonus 1900). -/
theorem c3_attacker_parity_bug :
    attackingTeam 1 = Team.a ∧
    determine_round_winner 1 5 5 true = Team.b ∧
    (update_economy 1 ⟨4000, 4000, 0, 0⟩ 0 0 Team.b true).2.team_b_reward = 3300 ∧
    (update_economy 1 ⟨4000, 4000, 0, 0⟩ 0 0 Team.b true).2.team_a_reward = 1900 := by
  refine ⟨by decide, by decide, by decide, by decide⟩

/-! ## Claim C8 -/

/-- The duel rating formula exactly as the specification words it:
`0.4·aim·accuracy + 0.3·movement·movementAccuracy + 0.3·gameSense`. -/
def duelRatingSpec (s : DuelStats) (w : Weapon) : ℚ :=
  0.4 * s.aim * w.accuracy + 0.3 * s.movement * w.movementAccuracy +
    0.3 * s.gameSense

/-- The duel decision exactly as the claim describes it: spec rating, range
multiplier, sniper/SMG bonuses, armor reduction against the opponent's
armor, jitter factors, strict comparison. -/
def duel_spec_wins (attacker defender : DuelStats) (aw dw : String)
    (distance : WRange) (attacker_armor defender_armor : Bool)
    (jA jD : ℚ) : Bool :=
  let attW := getWeapon aw
  let defW := getWeapon dw
  let ra0 := duelRatingSpec attacker attW * attW.rangeMult distance
  let rd0 := duelRatingSpec defender defW * defW.rangeMult distance
  let ra1 := if attW.wtype = .sniper ∧ distance = .long then ra0 * 1.5 else ra0
  let rd1 := if defW.wtype = .smg ∧ distance = .close then rd0 * 1.2 else rd0
  let ra2 := if defender_armor then ra1 * (1 - (1 - attW.armorPenetration) * 0.5) else ra1
  let rd2 := if attacker_armor then rd1 * (1 - (1 - defW.armorPenetration) * 0.5) else rd1
  ra2 * jA > rd2 * jD

theorem duelRatingSpec_eq (s : DuelStats) (w : Weapon) :
    duelRatingSpec s w = duelBaseRating s w := by
  unfold duelRatingSpec duelBaseRating; ring

/-- C8.  `_simulate_duel` computes exactly the claimed pipeline: the spec
rating `0.4·aim·accuracy + 0.3·movement·movementAccuracy + 0.3·gameSense`,
the range multiplier, a 1.5 sniper bonus for the attacker at long range and
a 1.2 SMG bonus for the defender at close range, the armor reduction
`1 − (1 − armorPenetration)·0.5` applied to a side whose opponent has
armor, a jitter factor on each rating (the source draws each from
`random.uniform(0.8, 1.2)` independently), and the attacker wins iff its
jittered rating strictly exceeds the defender's. -/
theorem c8_duel_resolver_matches_spec (attacker defender : DuelStats)
    (aw dw : String) (distance : WRange) (attacker_armor defender_armor : Bool)
    (jA jD : ℚ) :
    simulate_duel attacker defender aw dw distance attacker_armor defender_armor jA jD =
      duel_spec_wins attacker defender aw dw distance attacker_armor defender_armor jA jD := by
  simp only [simulate_duel, duel_spec_wins, duelRatingSpec_eq]

/-! ## Claim C4 -/

set_option maxHeartbeats 1000000

/-- C4 (amended).  For every played round's economy-log entry,
`team_X_end = max(MIN_MONEY, min(MAX_MONEY, team_X_start + team_X_reward))`
with the per-team bounds MIN_MONEY = 2000 and MAX_MONEY = 9000 — not the
claimed `start - spend + reward` clamped to `[MIN_MONEY·5, MAX_MONEY·5]`:
`_buy_phase` records `team_X_spend` in the log but never subtracts it from
the team aggregate `self.economy`.  The hypotheses state the (invariant)
fact that each team enters the round with at least MIN_MONEY credits. -/
theorem c4_econ_log_balance (r : Nat) (st : EconState) (spendA spendB : Nat)
    (w : Team) (planted : Bool)
    (hA : MIN_MONEY ≤ st.econA) (hB : MIN_MONEY ≤ st.econB) :
    (update_economy r st spendA spendB w planted).2.team_a_end =
      max MIN_MONEY (min MAX_MONEY
        ((update_economy r st spendA spendB w planted).2.team_a_start +
          (update_economy r st spendA spendB w planted).2.team_a_reward)) ∧
    (update_economy r st spendA spendB w planted).2.team_b_end =
      max MIN_MONEY (min MAX_MONEY
        ((update_economy r st spendA spendB w planted).2.team_b_start +
          (update_economy r st spendA spendB w planted).2.team_b_reward)) := by
  obtain ⟨ea, eb, sa, sb⟩ := st
  simp only [MIN_MONEY] at hA hB
  cases w <;> by_cases hr : r % 2 = 0 <;> cases planted <;>
    simp only [update_economy, EconState.setEcon, EconState.setStreak, EconState.econ,
      EconState.streak, hr, if_true, if_false, reduceIte, reduceCtorEq,
      and_true, and_false, true_and, false_and, ite_true, ite_false,
      MIN_MONEY, MAX_MONEY, WIN_REWARD, PLANT_BONUS] <;>
    omega

set_option maxHeartbeats 200000

/-- Witness for `c4_econ_log_balance` at round 0, both teams at 4000,
spends 2000/1000, team A winning a planted round. -/
theorem c4_econ_log_balance_witness :
    (MIN_MONEY ≤ (4000 : Nat)) ∧
    ((update_economy 0 ⟨4000, 4000, 0, 0⟩ 2000 1000 Team.a true).2.team_a_end =
      max MIN_MONEY (min MAX_MONEY
        ((update_economy 0 ⟨4000, 4000, 0, 0⟩ 2000 1000 Team.a true).2.team_a_start +
          (update_economy 0 ⟨4000, 4000, 0, 0⟩ 2000 1000 Team.a true).2.team_a_reward)) ∧
    (update_economy 0 ⟨4000, 4000, 0, 0⟩ 2000 1000 Team.a true).2.team_b_end =
      max MIN_MONEY (min MAX_MONEY
        ((update_economy 0 ⟨4000, 4000, 0, 0⟩ 2000 1000 Team.a true).2.team_b_start +
          (update_economy 0 ⟨4000, 4000, 0, 0⟩ 2000 1000 Team.a true).2.team_b_reward))) :=
  ⟨by decide,
   c4_econ_log_balance 0 ⟨4000, 4000, 0, 0⟩ 2000 1000 Team.a true (by decide) (by decide)⟩

/-- C4 counterexample.  Round 0, both teams start at 4000, team A spends
2000 in the buy phase and wins (reward 3000, no plant): the logged
`team_a_end` is 7000, while the claimed balance `start - spend + reward`
is 5000 and its claimed clamp into `[MIN_MONEY·5, MAX_MONEY·5]` is 10000 —
the spend is never deducted from the aggregate, and the clamp bounds are
per-team, not five-fold. -/
theorem c4_counterexample :
    (update_economy 0 ⟨4000, 4000, 0, 0⟩ 2000 1000 Team.a false).2.team_a_end = 7000 ∧
    (update_economy 0 ⟨4000, 4000, 0, 0⟩ 2000 1000 Team.a false).2.team_a_start -
        (update_economy 0 ⟨4000, 4000, 0, 0⟩ 2000 1000 Team.a false).2.team_a_spend +
        (update_economy 0 ⟨4000, 4000, 0, 0⟩ 2000 1000 Team.a false).2.team_a_reward = 5000 ∧
    (7000 : Nat) ≠ 5000 ∧
    (7000 : Nat) ≠ max (MIN_MONEY * 5) (min (MAX_MONEY * 5) 5000) := by
  decide

/-! ## Claim C5 -/

/-- C5 (amended).  After every round other than round 12, every tracked
player's credits land in `[MIN_MONEY, MAX_MONEY] = [2000, 9000]`: winners
get `min(MAX_MONEY, credits + 3000) ≥ 3000`, losers get
`max(MIN_MONEY, min(MAX_MONEY, credits + lossBonus))`, and the optional
plant bonus keeps the `min MAX_MONEY` cap.  After round 12 the claim
fails: the new-half reset forces 800 (see the counterexample). -/
theorem c5_player_credit_bounds (r : Nat) (team winner : Team)
    (loserStreak : Nat) (planted : Bool) (cur : Nat) (h : r ≠ 12) :
    MIN_MONEY ≤ update_player_credits_one r team winner loserStreak planted cur ∧
    update_player_credits_one r team winner loserStreak planted cur ≤ MAX_MONEY := by
  simp only [update_player_credits_one, MIN_MONEY, MAX_MONEY, WIN_REWARD, PLANT_BONUS]
  split_ifs <;> omega

/-- Witness for `c5_player_credit_bounds`: round 0, a winning player at
800 post-buy credits. -/
theorem c5_player_credit_bounds_witness :
    (0 : Nat) ≠ 12 ∧
    (MIN_MONEY ≤ update_player_credits_one 0 Team.a Team.a 1 false 800 ∧
      update_player_credits_one 0 Team.a Team.a 1 false 800 ≤ MAX_MONEY) :=
  ⟨by decide, c5_player_credit_bounds 0 Team.a Team.a 1 false 800 (by decide)⟩

/-- C5 counterexample.  Every completed match plays round 12 (the winning
side needs 13 round wins, so at least rounds 0..12 are played), and after
round 12 `_update_player_credits` resets every tracked player to 800
credits, violating `MIN_MONEY ≤ credits`: here a player holding 5000
credits ends round 12 with 800 < 2000. -/
theorem c5_counterexample :
    update_player_credits_one 12 Team.a Team.a 1 false 5000 = 800 ∧
    ¬ MIN_MONEY ≤ update_player_credits_one 12 Team.a Team.a 1 false 5000 := by
  decide

/-! ## Claim C6 -/

/-- C6 (amended).  Credits equal 800 exactly at the pistol rounds: the buy
phase of rounds 0 and 12 forces every player's credits to 800 before
purchases (`_buy_phase` lines 197-202), and the post-round update of round
12 resets every player to 800 for the second-half pistol
(`_update_player_credits` lines 1088-1126).  After round 0, by contrast,
credits follow the normal win/loss rewards (see the counterexample), so
"credits equal 800 at the start of the next buy phase" holds for the
round-12 boundary but not for the round-0 boundary. -/
theorem c6_pistol_reset (r : Nat) (stored : Option Nat) (team winner : Team)
    (streak : Nat) (planted : Bool) (cur : Nat) (h : r = 0 ∨ r = 12) :
    buyPhaseStartCredits r stored = 800 ∧
    update_player_credits_one 12 team winner streak planted cur = 800 := by
  constructor
  · rcases h with h | h <;> simp [buyPhaseStartCredits, isPistolRound, h]
  · simp [update_player_credits_one]

/-- Witness for `c6_pistol_reset` at round 0. -/
theorem c6_pistol_reset_witness :
    ((0 : Nat) = 0 ∨ (0 : Nat) = 12) ∧
    (buyPhaseStartCredits 0 (some 500) = 800 ∧
      update_player_credits_one 12 Team.a Team.b 0 true 100 = 800) :=
  ⟨by decide, c6_pistol_reset 0 (some 500) Team.a Team.b 0 true 100 (by decide)⟩

/-- C6 counterexample.  A player on the winning team of round 0 with 0
post-buy credits holds `min(9000, 0 + 3000) = 3000` credits afterwards, so
at the start of round 1's buy phase the engine reads 3000, not the claimed
800: the reset-to-800 does not happen after round 0. -/
theorem c6_counterexample :
    update_player_credits_one 0 Team.a Team.a 1 false 0 = 3000 ∧
    buyPhaseStartCredits 1 (some (update_player_credits_one 0 Team.a Team.a 1 false 0)) = 3000 ∧
    (3000 : Nat) ≠ 800 := by
  decide

/-! ## Claim C1 -/

/-- Loop invariant of the score loop: starting from any state with both
scores at most 13 and not both equal to 13, the loop ends with exactly one
score equal to 13 (the other at most 12), and appends exactly one round
result per score increment. -/
theorem match_loop_main {ρ σ : Type} (roundFn : Nat → σ → Team × ρ × σ) :
    ∀ (n : Nat) (st : MatchLoopState ρ σ),
      (13 - st.scoreA) + (13 - st.scoreB) ≤ n →
      st.scoreA ≤ 13 → st.scoreB ≤ 13 → ¬(st.scoreA = 13 ∧ st.scoreB = 13) →
      (((match_loop roundFn st).scoreA = 13 ∧ (match_loop roundFn st).scoreB ≤ 12) ∨
        ((match_loop roundFn st).scoreB = 13 ∧ (match_loop roundFn st).scoreA ≤ 12)) ∧
      (match_loop roundFn st).rounds.length + st.scoreA + st.scoreB =
        st.rounds.length + (match_loop roundFn st).scoreA + (match_loop roundFn st).scoreB := by
  intro n
  induction n with
  | zero =>
      intro st hm ha hb hn
      exfalso
      omega
  | succ n ih =>
      intro st hm ha hb hn
      by_cases hc : is_match_complete st.scoreA st.scoreB
      · rw [match_loop, if_pos hc]
        simp only [is_match_complete, Bool.or_eq_true, decide_eq_true_eq] at hc
        exact ⟨by omega, rfl⟩
      · rw [match_loop, if_neg hc]
        simp only [is_match_complete, Bool.or_eq_true, decide_eq_true_eq, not_or,
          not_le] at hc
        obtain ⟨ha13, hb13⟩ := hc
        rcases hr : roundFn st.roundNumber st.inner with ⟨w, rr, s'⟩
        simp only [hr]
        by_cases hw : w = Team.a
        · simp only [hw, eq_self_iff_true, ite_true, if_true]
          have := ih
            ⟨st.scoreA + 1, st.scoreB, st.roundNumber + 1, st.rounds ++ [rr], s'⟩
            (by simp; omega) (by simp; omega) (by simp; omega) (by simp; omega)
          simp only [List.length_append, List.length_cons, List.length_nil] at this ⊢
          obtain ⟨h1, h2⟩ := this
          exact ⟨h1, by omega⟩
        · simp only [if_neg hw]
          have := ih
            ⟨st.scoreA, st.scoreB + 1, st.roundNumber + 1, st.rounds ++ [rr], s'⟩
            (by simp; omega) (by simp; omega) (by simp; omega) (by simp; omega)
          simp only [List.length_append, List.length_cons, List.length_nil] at this ⊢
          obtain ⟨h1, h2⟩ := this
          exact ⟨h1, by omega⟩

/-- C1.  Every completed `simulate_match` run — the loop started from the
source's initial state (score 0-0, round 0, no rounds yet), with the round
body abstracted as an arbitrary total function `roundFn` of the round
number and the inner engine state — ends with exactly one of the two
scores equal to 13, the other in [0,12] (0 ≤ is automatic on ℕ), and a
rounds list of length `13 + min scoreA scoreB`: the loop guard
`_is_match_complete` stops at the first score to reach 13 and every
iteration appends exactly one round result while incrementing exactly one
score. -/
theorem c1_score_termination {ρ σ : Type} (roundFn : Nat → σ → Team × ρ × σ)
    (inner0 : σ) :
    (((match_loop roundFn ⟨0, 0, 0, ([] : List ρ), inner0⟩).scoreA = 13 ∧
        (match_loop roundFn ⟨0, 0, 0, ([] : List ρ), inner0⟩).scoreB ≤ 12) ∨
      ((match_loop roundFn ⟨0, 0, 0, ([] : List ρ), inner0⟩).scoreB = 13 ∧
        (match_loop roundFn ⟨0, 0, 0, ([] : List ρ), inner0⟩).scoreA ≤ 12)) ∧
    (match_loop roundFn ⟨0, 0, 0, ([] : List ρ), inner0⟩).rounds.length =
      13 + min (match_loop roundFn ⟨0, 0, 0, ([] : List ρ), inner0⟩).scoreA
        (match_loop roundFn ⟨0, 0, 0, ([] : List ρ), inner0⟩).scoreB := by
  have h := match_loop_main roundFn 26 ⟨0, 0, 0, [], inner0⟩
    (by simp) (by simp) (by simp) (by simp)
  obtain ⟨h1, h2⟩ := h
  refine ⟨h1, ?_⟩
  simp only [List.length_nil] at h2
  omega

/-! ## Claim C2 -/

/-- C2 (amended).  `simulate_match` takes no seed parameter at all: its
only nondeterminism sources are the global `random` generator and the wall
clock.  With the random draws fixed (identical `roundFn`/`inner0`, which
carry the RNG), every returned field except `duration` is identical across
invocations regardless of the wall-clock readings: score, rounds, map,
mvp, economy logs and player agents are all computed independently of
`startTime`/`endTime`. -/
theorem c2_clock_independence {ρ σ : Type} (roundFn : Nat → σ → Team × ρ × σ)
    (getLogs : σ → List EconLogEntry) (mvpPlayers : List MvpPlayer)
    (rosterA rosterB : List RosterPlayer) (mapName : String) (inner0 : σ)
    (t1 t2 t1' t2' : ℚ) :
    (simulate_match roundFn getLogs mvpPlayers rosterA rosterB mapName inner0 t1 t2).scoreA =
      (simulate_match roundFn getLogs mvpPlayers rosterA rosterB mapName inner0 t1' t2').scoreA ∧
    (simulate_match roundFn getLogs mvpPlayers rosterA rosterB mapName inner0 t1 t2).scoreB =
      (simulate_match roundFn getLogs mvpPlayers rosterA rosterB mapName inner0 t1' t2').scoreB ∧
    (simulate_match roundFn getLogs mvpPlayers rosterA rosterB mapName inner0 t1 t2).rounds =
      (simulate_match roundFn getLogs mvpPlayers rosterA rosterB mapName inner0 t1' t2').rounds ∧
    (simulate_match roundFn getLogs mvpPlayers rosterA rosterB mapName inner0 t1 t2).mapName =
      (simulate_match roundFn getLogs mvpPlayers rosterA rosterB mapName inner0 t1' t2').mapName ∧
    (simulate_match roundFn getLogs mvpPlayers rosterA rosterB mapName inner0 t1 t2).mvp =
      (simulate_match roundFn getLogs mvpPlayers rosterA rosterB mapName inner0 t1' t2').mvp ∧
    (simulate_match roundFn getLogs mvpPlayers rosterA rosterB mapName inner0 t1 t2).economyLogs =
      (simulate_match roundFn getLogs mvpPlayers rosterA rosterB mapName inner0 t1' t2').economyLogs ∧
    (simulate_match roundFn getLogs mvpPlayers rosterA rosterB mapName inner0 t1 t2).playerAgents =
      (simulate_match roundFn getLogs mvpPlayers rosterA rosterB mapName inner0 t1' t2').playerAgents :=
  ⟨rfl, rfl, rfl, rfl, rfl, rfl, rfl⟩

/-- C2 counterexample.  Two invocations with identical teams, identical
map and identical random draws are not identical MatchResults: `duration`
is `round((endTime - startTime)/60, 2)` from two `datetime.now()` wall
clock readings, which no seed controls (and the source accepts no seed
parameter in the first place).  Here the same inputs with elapsed wall
times 0 s and 60 s give durations 0.0 and 1.0. -/
theorem c2_counterexample :
    simulate_match (ρ := Unit) (σ := Unit) (fun _ _ => (Team.a, (), ()))
        (fun _ => []) [] [] [] "Ascent" () 0 0 ≠
      simulate_match (fun _ _ => (Team.a, (), ())) (fun _ => []) [] [] [] "Ascent" () 0 60 := by
  intro h
  have hd := congrArg MatchResult.duration h
  simp only [simulate_match] at hd
  norm_num [roundTo2] at hd

/-! ## Claim C9 -/

/-- Each loop iteration of the agent selector appends exactly one
assignment, keyed by the processed player's id. -/
theorem select_agents_step_fst
    (z : List (String × Nat) × List (String × String)) (p : RosterPlayer) :
    ((select_agents_step z p).2).map Prod.fst = z.2.map Prod.fst ++ [p.id] := by
  obtain ⟨counts, agents⟩ := z
  simp only [select_agents_step]
  split
  · split <;> simp
  · simp

/-- The selector's fold assigns one agent per player, in sorted order. -/
theorem select_agents_fold_fst (l : List RosterPlayer) :
    ∀ (z : List (String × Nat) × List (String × String)),
      (((l.foldl select_agents_step z)).2).map Prod.fst =
        z.2.map Prod.fst ++ l.map RosterPlayer.id := by
  induction l with
  | nil => intro z; simp
  | cons p rest ih =>
      intro z
      simp only [List.foldl_cons, List.map_cons]
      rw [ih, select_agents_step_fst]
      simp

/-- C9 (amended).  `_select_agents_for_teams` assigns exactly one agent to
every player of a team — the assignment keys are a permutation of the
team's player ids — but performs no intra-team uniqueness check: an agent
can be assigned to several players of the same team (see the
counterexample), so only per-player totality holds, not pairwise
distinctness. -/
theorem c9_team_agent_assignment (team : List RosterPlayer) :
    ((select_agents_one_team team).map Prod.fst).Perm (team.map RosterPlayer.id) := by
  unfold select_agents_one_team
  rw [select_agents_fold_fst]
  simpa using (sortDescBy_perm rosterSortKey team).map RosterPlayer.id

/-- C9 counterexample.  A team of five players with no recorded agent
proficiencies: every player falls through to the `"Jett"` default and all
five receive the same agent, so the five assigned agents are not pairwise
distinct — there is no "pick the next-best agent on collision" logic in
the source. -/
theorem c9_counterexample :
    (select_agents_one_team
        [⟨"p1", "Duelist", [], []⟩, ⟨"p2", "Duelist", [], []⟩,
         ⟨"p3", "Duelist", [], []⟩, ⟨"p4", "Duelist", [], []⟩,
         ⟨"p5", "Duelist", [], []⟩]).lookup "p1" = some "Jett" ∧
    (select_agents_one_team
        [⟨"p1", "Duelist", [], []⟩, ⟨"p2", "Duelist", [], []⟩,
         ⟨"p3", "Duelist", [], []⟩, ⟨"p4", "Duelist", [], []⟩,
         ⟨"p5", "Duelist", [], []⟩]).lookup "p2" = some "Jett" ∧
    ¬ ((select_agents_one_team
        [⟨"p1", "Duelist", [], []⟩, ⟨"p2", "Duelist", [], []⟩,
         ⟨"p3", "Duelist", [], []⟩, ⟨"p4", "Duelist", [], []⟩,
         ⟨"p5", "Duelist", [], []⟩]).map Prod.snd).Pairwise (· ≠ ·) := by
  decide

/-! ## Claim C10 -/

/-- `_eco_buy` only returns catalog weapon names. -/
theorem eco_buy_mem (c : Nat) (a m : ℚ) (r : String) (ag : Option String) :
    eco_buy c a m r ag ∈ weapon_names := by
  unfold eco_buy
  split_ifs <;> decide

/-- `_force_buy` only returns catalog weapon names. -/
theorem force_buy_mem (c : Nat) (a m : ℚ) (r : String) (ag : Option String) :
    force_buy c a m r ag ∈ weapon_names := by
  unfold force_buy
  split_ifs <;> first | decide | exact eco_buy_mem ..

/-- `_half_buy` only returns catalog weapon names. -/
theorem half_buy_mem (c : Nat) (a m : ℚ) (r : String) (ag : Option String) :
    half_buy c a m r ag ∈ weapon_names := by
  unfold half_buy
  split_ifs <;> first | decide | exact force_buy_mem ..

/-- `_full_buy` only returns catalog weapon names. -/
theorem full_buy_mem (c : Nat) (a m u : ℚ) (r : String) (ag : Option String) :
    full_buy c a m u r ag ∈ weapon_names := by
  unfold full_buy
  split_ifs <;> first | decide | exact force_buy_mem ..

/-- `_pistol_round_buy` only returns catalog weapon names. -/
theorem pistol_round_buy_mem (c : Nat) (a m : ℚ) (r : String) :
    pistol_round_buy c a m r ∈ weapon_names := by
  unfold pistol_round_buy
  split_ifs <;> decide

/-- `decide_buy` only returns catalog weapon names. -/
theorem decide_buy_mem (p : BuyPlayer) (c : Nat) (rt : RoundType) :
    decide_buy p c rt ∈ weapon_names := by
  cases rt <;>
    first
    | exact pistol_round_buy_mem ..
    | exact eco_buy_mem ..
    | exact force_buy_mem ..
    | exact half_buy_mem ..
    | exact full_buy_mem ..

/-- The buy-phase weapon choice is always a catalog name. -/
theorem buy_weapon_choice_mem (rt prt : RoundType) (it : Bool) (idx : Nat)
    (p : BuyPlayer) (c : Nat) :
    buy_weapon_choice rt prt it idx p c ∈ weapon_names := by
  unfold buy_weapon_choice
  split_ifs <;> first | decide | exact decide_buy_mem ..

/-- The recorded weapon (chosen or Classic fallback) is a catalog name. -/
theorem buy_weapon_final_mem (w : String) (c : Nat) (hw : w ∈ weapon_names) :
    buy_weapon_final w c ∈ weapon_names := by
  unfold buy_weapon_final
  split_ifs <;> first | decide | exact hw

/-- Each buy-phase iteration updates exactly the processed player's
weapon (to a catalog name) and armor entries. -/
theorem buy_phase_step_shape (r : Nat) (rt : RoundType) (te : Nat) (it : Bool)
    (idx : Nat) (p : BuyPlayer) (st : BuyState) :
    ∃ w b, w ∈ weapon_names ∧
      (buy_phase_step r rt te it idx p st).weapons = dset st.weapons p.id w ∧
      (buy_phase_step r rt te it idx p st).armor = dset st.armor p.id b := by
  simp only [buy_phase_step]
  split_ifs <;>
    first
    | exact ⟨_, true, buy_weapon_final_mem _ _ (buy_weapon_choice_mem ..), rfl, rfl⟩
    | exact ⟨_, false, buy_weapon_final_mem _ _ (buy_weapon_choice_mem ..), rfl, rfl⟩
    | exact ⟨"Classic", false, by decide, rfl, rfl⟩

/-- Every weapon value stored by the buy-phase loop is a catalog name. -/
theorem buy_phase_loop_vals (r : Nat) (rt : RoundType) (te : Nat) (it : Bool) :
    ∀ (team : List BuyPlayer) (idx : Nat) (st : BuyState),
      (∀ k w, st.weapons.lookup k = some w → w ∈ weapon_names) →
      ∀ k w, (buy_phase_loop r rt te it idx team st).weapons.lookup k = some w →
        w ∈ weapon_names := by
  intro team
  induction team with
  | nil => intro idx st h k w hw; exact h k w hw
  | cons p rest ih =>
      intro idx st h k w hw
      simp only [buy_phase_loop] at hw
      obtain ⟨wv, b, hwv, hmw, _⟩ := buy_phase_step_shape r rt te it idx p st
      refine ih (idx + 1) _ ?_ k w hw
      intro k' w' hk'
      rw [hmw, lookup_dset] at hk'
      by_cases hkp : k' = p.id
      · rw [if_pos hkp] at hk'
        cases hk'
        exact hwv
      · rw [if_neg hkp] at hk'
        exact h k' w' hk'

/-- The defaults loop leaves the weapons dict alone or sets `Classic`. -/
theorem ensure_step_weapons_shape (st : BuyState) (p : BuyPlayer) :
    (ensure_step st p).weapons = st.weapons ∨
      (ensure_step st p).weapons = dset st.weapons p.id "Classic" := by
  simp only [ensure_step]
  rcases hw : st.weapons.lookup p.id with _ | s
  · right; rfl
  · by_cases hs : s = ""
    · right; simp [hs]
    · left; simp [hs]

/-- The defaults loop leaves the armor dict alone or sets `False`. -/
theorem ensure_step_armor_shape (st : BuyState) (p : BuyPlayer) :
    (ensure_step st p).armor = st.armor ∨
      (ensure_step st p).armor = dset st.armor p.id false := by
  simp only [ensure_step]
  rcases ha : st.armor.lookup p.id with _ | b
  · right; rfl
  · left; rfl

/-- After the defaults loop visits a player, that player has a weapon. -/
theorem ensure_step_weapons_some (st : BuyState) (p : BuyPlayer) :
    ((ensure_step st p).weapons.lookup p.id).isSome := by
  simp only [ensure_step]
  rcases hw : st.weapons.lookup p.id with _ | s
  · simp [lookup_dset_self]
  · by_cases hs : s = ""
    · simp [hs, lookup_dset_self]
    · simp [hs, hw]

/-- After the defaults loop visits a player, that player has an armor flag. -/
theorem ensure_step_armor_some (st : BuyState) (p : BuyPlayer) :
    ((ensure_step st p).armor.lookup p.id).isSome := by
  simp only [ensure_step]
  rcases ha : st.armor.lookup p.id with _ | b
  · simp [lookup_dset_self]
  · simp [ha]

/-- The defaults loop never removes an existing weapon or armor entry. -/
theorem ensure_step_preserves_some (st : BuyState) (p : BuyPlayer) (k : String) :
    ((st.weapons.lookup k).isSome → ((ensure_step st p).weapons.lookup k).isSome) ∧
    ((st.armor.lookup k).isSome → ((ensure_step st p).armor.lookup k).isSome) := by
  constructor
  · intro h
    rcases ensure_step_weapons_shape st p with he | he <;> rw [he]
    · exact h
    · rw [lookup_dset]
      by_cases hk : k = p.id
      · simp [hk]
      · simp only [if_neg hk]
        exact h
  · intro h
    rcases ensure_step_armor_shape st p with he | he <;> rw [he]
    · exact h
    · rw [lookup_dset]
      by_cases hk : k = p.id
      · simp [hk]
      · simp only [if_neg hk]
        exact h

/-- The defaults loop only ever adds the catalog name `Classic`. -/
theorem ensure_step_preserves_vals (st : BuyState) (p : BuyPlayer)
    (h : ∀ k w, st.weapons.lookup k = some w → w ∈ weapon_names) :
    ∀ k w, (ensure_step st p).weapons.lookup k = some w → w ∈ weapon_names := by
  intro k w hk
  rcases ensure_step_weapons_shape st p with he | he <;> rw [he] at hk
  · exact h k w hk
  · rw [lookup_dset] at hk
    by_cases hkp : k = p.id
    · rw [if_pos hkp] at hk
      cases hk
      decide
    · rw [if_neg hkp] at hk
      exact h k w hk

/-- Entries surviving into the defaults loop stay present. -/
theorem ensure_defaults_preserves_some (team : List BuyPlayer) :
    ∀ (st : BuyState) (k : String),
      ((st.weapons.lookup k).isSome → ((ensure_defaults team st).weapons.lookup k).isSome) ∧
      ((st.armor.lookup k).isSome → ((ensure_defaults team st).armor.lookup k).isSome) := by
  induction team with
  | nil => intro st k; exact ⟨id, id⟩
  | cons q rest ih =>
      intro st k
      constructor
      · intro h
        exact (ih (ensure_step st q) k).1 ((ensure_step_preserves_some st q k).1 h)
      · intro h
        exact (ih (ensure_step st q) k).2 ((ensure_step_preserves_some st q k).2 h)

/-- After the defaults loop, every team member has weapon and armor
entries. -/
theorem ensure_defaults_some (team : List BuyPlayer) :
    ∀ (st : BuyState) (p : BuyPlayer), p ∈ team →
      (((ensure_defaults team st).weapons.lookup p.id).isSome ∧
        ((ensure_defaults team st).armor.lookup p.id).isSome) := by
  induction team with
  | nil => intro st p hp; cases hp
  | cons q rest ih =>
      intro st p hp
      rcases List.mem_cons.mp hp with hq | hrest
      · subst hq
        refine ⟨?_, ?_⟩
        · exact (ensure_defaults_preserves_some rest (ensure_step st p) p.id).1
            (ensure_step_weapons_some st p)
        · exact (ensure_defaults_preserves_some rest (ensure_step st p) p.id).2
            (ensure_step_armor_some st p)
      · exact ih (ensure_step st q) p hrest

/-- The defaults loop preserves the all-values-in-catalog invariant. -/
theorem ensure_defaults_vals (team : List BuyPlayer) :
    ∀ (st : BuyState),
      (∀ k w, st.weapons.lookup k = some w → w ∈ weapon_names) →
      ∀ k w, (ensure_defaults team st).weapons.lookup k = some w → w ∈ weapon_names := by
  induction team with
  | nil => intro st h; exact h
  | cons q rest ih =>
      intro st h
      exact ih (ensure_step st q) (ensure_step_preserves_vals st q h)

/-- Each unit-test shortcut iteration assigns a catalog weapon and armor
to the processed player. -/
theorem test_shortcut_step_shape (acc : Nat × BuyState) (p : BuyPlayer) :
    ∃ w, w ∈ weapon_names ∧
      (test_shortcut_step acc p).2.weapons = dset acc.2.weapons p.id w ∧
      (test_shortcut_step acc p).2.armor = dset acc.2.armor p.id true := by
  simp only [test_shortcut_step]
  split_ifs <;> exact ⟨_, by decide, rfl, trivial⟩

/-- The unit-test shortcut stores only catalog weapon names. -/
theorem test_shortcut_fold_vals (l : List BuyPlayer) :
    ∀ (acc : Nat × BuyState),
      (∀ k w, acc.2.weapons.lookup k = some w → w ∈ weapon_names) →
      ∀ k w, ((l.foldl test_shortcut_step acc).2.weapons.lookup k = some w) →
        w ∈ weapon_names := by
  induction l with
  | nil => intro acc h; exact h
  | cons q rest ih =>
      intro acc h
      refine ih (test_shortcut_step acc q) ?_
      obtain ⟨wv, hwv, hmw, _⟩ := test_shortcut_step_shape acc q
      intro k w hk
      rw [hmw, lookup_dset] at hk
      by_cases hkq : k = q.id
      · rw [if_pos hkq] at hk
        cases hk
        exact hwv
      · rw [if_neg hkq] at hk
        exact h k w hk

/-- The unit-test shortcut never removes weapon or armor entries. -/
theorem test_shortcut_preserves_some (l : List BuyPlayer) :
    ∀ (acc : Nat × BuyState) (k : String),
      ((acc.2.weapons.lookup k).isSome →
        (((l.foldl test_shortcut_step acc).2.weapons.lookup k).isSome)) ∧
      ((acc.2.armor.lookup k).isSome →
        (((l.foldl test_shortcut_step acc).2.armor.lookup k).isSome)) := by
  induction l with
  | nil => intro acc k; exact ⟨id, id⟩
  | cons q rest ih =>
      intro acc k
      obtain ⟨wv, hwv, hmw, hma⟩ := test_shortcut_step_shape acc q
      constructor
      · intro h
        refine (ih (test_shortcut_step acc q) k).1 ?_
        rw [hmw, lookup_dset]
        by_cases hk : k = q.id
        · simp [hk]
        · simp only [if_neg hk]
          exact h
      · intro h
        refine (ih (test_shortcut_step acc q) k).2 ?_
        rw [hma, lookup_dset]
        by_cases hk : k = q.id
        · simp [hk]
        · simp only [if_neg hk]
          exact h

/-- The unit-test shortcut covers every team member. -/
theorem test_shortcut_fold_some (l : List BuyPlayer) :
    ∀ (acc : Nat × BuyState) (p : BuyPlayer), p ∈ l →
      (((l.foldl test_shortcut_step acc).2.weapons.lookup p.id).isSome ∧
        ((l.foldl test_shortcut_step acc).2.armor.lookup p.id).isSome) := by
  induction l with
  | nil => intro acc p hp; cases hp
  | cons q rest ih =>
      intro acc p hp
      rcases List.mem_cons.mp hp with hq | hrest
      · subst hq
        obtain ⟨wv, hwv, hmw, hma⟩ := test_shortcut_step_shape acc p
        constructor
        · refine (test_shortcut_preserves_some rest (test_shortcut_step acc p) p.id).1 ?_
          rw [hmw, lookup_dset_self]
          rfl
        · refine (test_shortcut_preserves_some rest (test_shortcut_step acc p) p.id).2 ?_
          rw [hma, lookup_dset_self]
          rfl
      · exact ih (test_shortcut_step acc q) p hrest

/-- C10.  In every round, `_buy_phase` returns total weapon and armor
assignments: every player of the team (whatever their credits, including a
player whose chosen weapon is unaffordable) is mapped to a weapon name
that is a key of the weapon catalog and to a boolean armor flag, on both
the normal path (player loop plus trailing defaults loop) and the
unit-test shortcut path.  The last conjunct states the Classic default
explicitly: a player entering the buy phase with zero credits is mapped to
`Classic` with no armor. -/
theorem c10_buy_phase_totality (team : List BuyPlayer)
    (teamEconomy lossStreak round_number : Nat)
    (credits : List (String × Nat)) (p : BuyPlayer) (hp : p ∈ team) :
    (∃ w, (buy_phase team teamEconomy lossStreak round_number credits).weapons.lookup p.id =
        some w ∧ w ∈ weapon_names) ∧
    (∃ b, (buy_phase team teamEconomy lossStreak round_number credits).armor.lookup p.id =
        some b) ∧
    (∀ (rt : RoundType) (isTest : Bool) (idx : Nat) (st : BuyState),
      buyPhaseStartCredits round_number (st.credits.lookup p.id) = 0 →
      (buy_phase_step round_number rt teamEconomy isTest idx p st).weapons.lookup p.id =
          some "Classic" ∧
        (buy_phase_step round_number rt teamEconomy isTest idx p st).armor.lookup p.id =
          some false) := by
  refine ⟨?_, ?_, ?_⟩
  · simp only [buy_phase]
    split_ifs with h
    · have hs := (test_shortcut_fold_some team (0, ⟨credits, [], [], 0⟩) p hp).1
      obtain ⟨w, hw⟩ := Option.isSome_iff_exists.mp hs
      refine ⟨w, hw, ?_⟩
      refine test_shortcut_fold_vals team (0, ⟨credits, [], [], 0⟩) ?_ p.id w hw
      intro k w' hk
      simp [List.lookup] at hk
    · have hs := (ensure_defaults_some team
        (buy_phase_loop round_number (determine_round_type teamEconomy lossStreak)
          teamEconomy (is_test_team team) 0 team ⟨credits, [], [], 0⟩) p hp).1
      obtain ⟨w, hw⟩ := Option.isSome_iff_exists.mp hs
      refine ⟨w, hw, ?_⟩
      refine ensure_defaults_vals team _ ?_ p.id w hw
      refine buy_phase_loop_vals round_number
        (determine_round_type teamEconomy lossStreak) teamEconomy
        (is_test_team team) team 0 ⟨credits, [], [], 0⟩ ?_
      intro k w' hk
      simp [List.lookup] at hk
  · simp only [buy_phase]
    split_ifs with h
    · have hs := (test_shortcut_fold_some team (0, ⟨credits, [], [], 0⟩) p hp).2
      exact Option.isSome_iff_exists.mp hs
    · have hs := (ensure_defaults_some team
        (buy_phase_loop round_number (determine_round_type teamEconomy lossStreak)
          teamEconomy (is_test_team team) 0 team ⟨credits, [], [], 0⟩) p hp).2
      exact Option.isSome_iff_exists.mp hs
  · intro rt isTest idx st h0
    simp only [buy_phase_step, h0]
    constructor
    · simp [lookup_dset_self]
    · simp [lookup_dset_self]

/-- Witness for `c10_buy_phase_totality` on a concrete one-player team in
a pistol round. -/
theorem c10_buy_phase_totality_witness :
    ((⟨"p1", 91, 50, 50, "Flex", []⟩ : BuyPlayer) ∈
        [(⟨"p1", 91, 50, 50, "Flex", []⟩ : BuyPlayer)]) ∧
    ((∃ w, (buy_phase [⟨"p1", 91, 50, 50, "Flex", []⟩] 2000 0 0
          [("p1", 800)]).weapons.lookup "p1" = some w ∧ w ∈ weapon_names) ∧
      (∃ b, (buy_phase [⟨"p1", 91, 50, 50, "Flex", []⟩] 2000 0 0
          [("p1", 800)]).armor.lookup "p1" = some b) ∧
      (∀ (rt : RoundType) (isTest : Bool) (idx : Nat) (st : BuyState),
        buyPhaseStartCredits 0 (st.credits.lookup "p1") = 0 →
        (buy_phase_step 0 rt 2000 isTest idx ⟨"p1", 91, 50, 50, "Flex", []⟩ st).weapons.lookup "p1" =
            some "Classic" ∧
          (buy_phase_step 0 rt 2000 isTest idx ⟨"p1", 91, 50, 50, "Flex", []⟩ st).armor.lookup "p1" =
            some false)) :=
  ⟨by decide,
   c10_buy_phase_totality [⟨"p1", 91, 50, 50, "Flex", []⟩] 2000 0 0 [("p1", 800)]
     ⟨"p1", 91, 50, 50, "Flex", []⟩ (by decide)⟩
